import Mathlib

/-!
Shallow embedding of the two interactive point-collection scripts of this
repository, click_painting_corners.py and click_points.py, together with
proofs about them.

Modelling conventions:
* Coordinates are opaque scalars of a type parameter α; a clicked point is a
  pair α × α.  The scripts never compute with coordinate values, so the
  embedding is polymorphic in them.
* The operator input to one capture is the full list of clicks standing when
  the operator finalizes (after any right-click undos), passed as an explicit
  argument; plt.ginput with click budget n caps that list at n clicks, with
  n = -1 meaning unlimited, which the function ginput below reproduces.
* The file system is a map from path to optional content; os.path.exists is
  modelled as isSome, np.savez as a pointwise update (savez below).
* Window effects and the structured console effects (the count-mismatch
  warning, the array echoes, the per-painting dimension display) are recorded
  in an event trace; fixed instructional banner text, which carries no data,
  is not modelled.
* Physical painting dimensions reach only the console trace (the dimension
  and aspect-ratio display), never any computation, so the orchestration is
  polymorphic in their type W.
-/

namespace ClickScripts

/-- Content of a file: an image (opaque to both scripts, which only display
it) or a saved npz archive, i.e. a list of named coordinate arrays. -/
inductive FileContent (α : Type) where
  | image
  | npz (entries : List (String × List (α × α)))
deriving DecidableEq

/-- File-system state: a map from path to optional content. -/
abbrev FS (α : Type) := String → Option (FileContent α)

/-- Errors a single-image capture can raise: the FileNotFoundError for a
missing image and the ValueError for too few clicked points. -/
inductive CaptureError where
  | fileNotFound (path : String)
  | insufficientInput (need got : Nat)
deriving DecidableEq

/-- Observable events of a run: figure windows opening and closing, the
per-painting dimension display, the count-mismatch warning, and the echo of
a named coordinate array to the console. -/
inductive Ev (α W : Type) where
  | openWindow (title : String)
  | closeWindow
  | showDims (i : Fin 6) (w : W)
  | warnMismatch (n1 n2 : Nat)
  | echoRepr (nm : String) (pts : List (α × α))
deriving DecidableEq

instance {ε σ : Type} [DecidableEq ε] [DecidableEq σ] : DecidableEq (Except ε σ)
  | .error x, .error y => decidable_of_iff (x = y) (by simp)
  | .error _, .ok _ => isFalse (by simp)
  | .ok _, .error _ => isFalse (by simp)
  | .ok x, .ok y => decidable_of_iff (x = y) (by simp)

/-- Model of str.lower as used on the one-letter overwrite response:
character-wise lowercasing. -/
def lower (s : String) : String := String.mk (s.data.map Char.toLower)

/-- Model of plt.ginput: returns the clicks standing at finalization, capped
at n when n is nonnegative (the scripts use n = 4 and n = -1). -/
def ginput {α : Type} (n : Int) (clicks : List (α × α)) : List (α × α) :=
  if n < 0 then clicks else clicks.take n.toNat

/-- Model of np.savez: write a named-array archive at the given path. -/
def savez {α : Type} (fs : FS α) (nm : String)
    (entries : List (String × List (α × α))) : FS α :=
  fun p => if p = nm then some (.npz entries) else fs p

/-- Outcome of one run of a script body (its main function). -/
inductive Outcome where
  | completed
  | declined
  | failed (e : CaptureError)
deriving DecidableEq

/-- Result of one run of a script body: outcome, final file system, and the
event trace. -/
structure RunResult (α W : Type) where
  outcome : Outcome
  fs : FS α
  events : List (Ev α W)

/-- Behavior of one invocation of a script body, as seen by the top-level
try/except handler: normal return, a KeyboardInterrupt, or some other
exception of type ε. -/
inductive MainBehavior (ε : Type) where
  | completes
  | interrupted
  | raises (e : ε)

/-- Console notes the top-level handlers can print. -/
inductive TopEv (ε : Type) where
  | interruptNote
  | errorNote (e : ε)

/-- Process exit status: clean, or terminated by a re-raised exception. -/
inductive ExitStatus (ε : Type) where
  | clean
  | nonzero (e : ε)

namespace ClickPoints

/-- Fixed window title for the first image in click_points.py. -/
def title1 : String := "Image 3 - Click points (Press Enter when done)"

/-- Window title for the second image in click_points.py, which interpolates
the first image's click count. -/
def title2 (n : Nat) : String :=
  "Image 4 - Click " ++ toString n ++
    " corresponding points in same order (Press Enter when done)"

/-- Translation of click_points_on_image from click_points.py: check
existence (raising FileNotFoundError on absence, before any display), open
the figure, collect clicks via ginput with unlimited budget, raise
ValueError when fewer than min_points were clicked — note the raise happens
before plt.close — and otherwise close the figure and return the points. -/
def click_points_on_image {α W : Type} (fs : FS α) (image_path title : String)
    (min_points : Nat) (clicks : List (α × α)) :
    Except CaptureError (List (α × α)) × List (Ev α W) :=
  if !(fs image_path).isSome then
    (.error (.fileNotFound image_path), [])
  else
    let points := ginput (-1) clicks
    if points.length < min_points then
      (.error (.insufficientInput min_points points.length), [.openWindow title])
    else
      (.ok points, [.openWindow title, .closeWindow])

/-- Translation of main from click_points.py: capture on image_3.png with a
minimum of 4, then on image_4.png with the first count as minimum; when the
two counts differ, warn and truncate both lists to the shorter length; save
the two arrays under the fixed names image1points and image2points and echo
both arrays to the console.  A capture error aborts the run with the file
system unchanged. -/
def main {α W : Type} (fs : FS α) (clicks1 clicks2 : List (α × α)) :
    RunResult α W :=
  let r1 := click_points_on_image (W := W) fs "image_3.png" title1 4 clicks1
  match r1.1 with
  | .error e => ⟨.failed e, fs, r1.2⟩
  | .ok points_img1 =>
      let r2 := click_points_on_image (W := W) fs "image_4.png"
          (title2 points_img1.length) points_img1.length clicks2
      match r2.1 with
      | .error e => ⟨.failed e, fs, r1.2 ++ r2.2⟩
      | .ok points_img2 =>
          if points_img2.length ≠ points_img1.length then
            let n_points := min points_img1.length points_img2.length
            let image1points := points_img1.take n_points
            let image2points := points_img2.take n_points
            ⟨.completed,
             savez fs "correspondence_points.npz"
               [("image1points", image1points), ("image2points", image2points)],
             r1.2 ++ r2.2 ++
               [.warnMismatch points_img1.length points_img2.length,
                .echoRepr "image1points" image1points,
                .echoRepr "image2points" image2points]⟩
          else
            ⟨.completed,
             savez fs "correspondence_points.npz"
               [("image1points", points_img1), ("image2points", points_img2)],
             r1.2 ++ r2.2 ++
               [.echoRepr "image1points" points_img1,
                .echoRepr "image2points" points_img2]⟩

/-- Translation of the top-level handler of click_points.py: a
KeyboardInterrupt is caught, a friendly note printed and the process exits
cleanly; any other exception is printed and re-raised. -/
def entry {ε : Type} : MainBehavior ε → ExitStatus ε × List (TopEv ε)
  | .completes => (.clean, [])
  | .interrupted => (.clean, [.interruptNote])
  | .raises e => (.nonzero e, [.errorNote e])

end ClickPoints

namespace ClickPaintingCorners

/-- Painting dimensions in centimeters (width, height), from
click_painting_corners.py; they feed only the console display. -/
def paintings_wh : Fin 6 → ℚ × ℚ :=
  ![(1213/10, 829/10), (921/10, 737/10), (2337/10, 2439/10),
    (3901/10, 2597/10), (1302/10, 1623/10), (2007/10, 2508/10)]

/-- Image file names, from click_painting_corners.py. -/
def image_files : Fin 6 → String :=
  !["Christinas World — Wyeth.jpeg",
    "The Starry Night — Van Gogh.jpeg",
    "Les Demoiselles dAvignon — Picasso.jpeg",
    "Dance (I) — Matisse.jpeg",
    "Girl Before a Mirror — Picasso.jpeg",
    "The Birth of the World — Miró.jpeg"]

/-- Window title built per image in the main loop of
click_painting_corners.py. -/
def cornerTitle (i : Fin 6) : String :=
  "Image " ++ toString (i.1 + 1) ++ " - " ++ image_files i ++
    "\nClick 4 corners (Top-left, Top-right, Bottom-right, Bottom-left)"

/-- Translation of click_corners from click_painting_corners.py: check
existence (raising FileNotFoundError on absence, before any display), open
the figure, collect clicks via ginput with budget 4, close the figure and
return whatever was collected.  Note there is no minimum-count check: a
capture finalized early returns the partial list as a success. -/
def click_corners {α W : Type} (fs : FS α) (image_path title : String)
    (clicks : List (α × α)) :
    Except CaptureError (List (α × α)) × List (Ev α W) :=
  if !(fs image_path).isSome then
    (.error (.fileNotFound image_path), [])
  else
    let points := ginput 4 clicks
    (.ok points, [.openWindow title, .closeWindow])

/-- The sequential image indices the main loop iterates over. -/
def allIndices : List (Fin 6) := [0, 1, 2, 3, 4, 5]

/-- The per-image part of main in click_painting_corners.py: for each index,
display the dimensions, capture the corners, and accumulate; the first
capture error aborts the loop. -/
def collectLoop {α W : Type} (wh : Fin 6 → W) (fs : FS α)
    (streams : Fin 6 → List (α × α)) :
    List (Fin 6) → List (Ev α W) × Except CaptureError (List (List (α × α)))
  | [] => ([], .ok [])
  | i :: rest =>
      let cap := click_corners (W := W) fs (image_files i) (cornerTitle i)
        (streams i)
      match cap.1 with
      | .error e => (.showDims i (wh i) :: cap.2, .error e)
      | .ok corners =>
          let r := collectLoop wh fs streams rest
          (.showDims i (wh i) :: (cap.2 ++ r.1),
           match r.2 with
           | .error e => .error e
           | .ok rest_points => .ok (corners :: rest_points))

/-- The named entries written by the np.savez call of
click_painting_corners.py: corners_0 through corners_5 in index order. -/
def cornersArchive {α : Type} (pts : List (List (α × α))) :
    List (String × List (α × α)) :=
  (List.range 6).map fun k => ("corners_" ++ toString k, pts.getD k [])

/-- Translation of main from click_painting_corners.py: when a prior
painting_corners.npz exists, ask for overwrite confirmation and return at
once (no display, no file change) unless the lowercased response is y; then
run the capture loop over all six images (a capture error aborts with the
file system unchanged) and finally save the six corner arrays. -/
def main {α W : Type} (wh : Fin 6 → W) (fs : FS α) (response : String)
    (streams : Fin 6 → List (α × α)) : RunResult α W :=
  if (fs "painting_corners.npz").isSome &&
      !(lower response == "y") then
    ⟨.declined, fs, []⟩
  else
    let r := collectLoop wh fs streams allIndices
    match r.2 with
    | .error e => ⟨.failed e, fs, r.1⟩
    | .ok pts =>
        ⟨.completed, savez fs "painting_corners.npz" (cornersArchive pts), r.1⟩

/-- Translation of the top-level handler of click_painting_corners.py,
identical in structure to the one of click_points.py: a KeyboardInterrupt is
caught, a friendly note printed and the process exits cleanly; any other
exception is printed and re-raised. -/
def entry {ε : Type} : MainBehavior ε → ExitStatus ε × List (TopEv ε)
  | .completes => (.clean, [])
  | .interrupted => (.clean, [.interruptNote])
  | .raises e => (.nonzero e, [.errorNote e])

end ClickPaintingCorners

/-- Event classifier: window-opening events. -/
def isOpenEv {α W : Type} : Ev α W → Bool
  | .openWindow _ => true
  | _ => false

/-- Event classifier: window-closing events. -/
def isCloseEv {α W : Type} : Ev α W → Bool
  | .closeWindow => true
  | _ => false

/-- Net change in the number of open display windows recorded by a trace. -/
def openDelta {α W : Type} (evs : List (Ev α W)) : Int :=
  (evs.countP isOpenEv : Int) - (evs.countP isCloseEv : Int)

/-- The image files the two scripts reference. -/
def imageNames : List String :=
  ["image_3.png", "image_4.png"] ++
    ClickPaintingCorners.allIndices.map ClickPaintingCorners.image_files

/-- Concrete file system holding every referenced image and no archive. -/
def fsAll : FS Int := fun p => if imageNames.contains p then some .image else none

/-- Concrete file system that additionally holds a prior corner archive. -/
def fsArch : FS Int := fun p =>
  if p = "painting_corners.npz" then some (.npz [("old", [])]) else fsAll p

end ClickScripts


namespace ClickScripts

/-- Concrete click lists used by concrete instances below. -/
def demo3 : List (Int × Int) := [(0, 0), (1, 0), (1, 1)]

/-- Four concrete clicks. -/
def demo4 : List (Int × Int) := [(0, 0), (1, 0), (1, 1), (0, 1)]

/-- Five concrete clicks. -/
def demo5 : List (Int × Int) := [(0, 0), (1, 0), (1, 1), (0, 1), (2, 2)]

/-- Six concrete clicks. -/
def demo6 : List (Int × Int) := [(0, 0), (1, 0), (1, 1), (0, 1), (2, 2), (3, 3)]

/-- Concrete corner-mode click streams: image 0 finalized after 3 clicks,
all others after the full 4. -/
def c3streams : Fin 6 → List (Int × Int) := fun i => if i = 0 then demo3 else demo4

theorem ginput_unbounded {α : Type} (c : List (α × α)) : ginput (-1) c = c := rfl

theorem cpo_missing {α W : Type} (fs : FS α) (p t : String) (m : Nat)
    (c : List (α × α)) (h : (fs p).isSome = false) :
    ClickPoints.click_points_on_image (W := W) fs p t m c
      = (.error (.fileNotFound p), []) := by
  simp [ClickPoints.click_points_on_image, h]

theorem cpo_ok {α W : Type} (fs : FS α) (p t : String) (m : Nat)
    (c : List (α × α)) (h : (fs p).isSome = true) (hm : m ≤ c.length) :
    ClickPoints.click_points_on_image (W := W) fs p t m c
      = (.ok c, [.openWindow t, .closeWindow]) := by
  simp [ClickPoints.click_points_on_image, h, ginput_unbounded, Nat.not_lt.mpr hm]

theorem cpo_short {α W : Type} (fs : FS α) (p t : String) (m : Nat)
    (c : List (α × α)) (h : (fs p).isSome = true) (hm : c.length < m) :
    ClickPoints.click_points_on_image (W := W) fs p t m c
      = (.error (.insufficientInput m c.length), [.openWindow t]) := by
  simp [ClickPoints.click_points_on_image, h, ginput_unbounded, hm]

theorem cc_missing {α W : Type} (fs : FS α) (p t : String)
    (c : List (α × α)) (h : (fs p).isSome = false) :
    ClickPaintingCorners.click_corners (W := W) fs p t c
      = (.error (.fileNotFound p), []) := by
  simp [ClickPaintingCorners.click_corners, h]

theorem cc_present {α W : Type} (fs : FS α) (p t : String)
    (c : List (α × α)) (h : (fs p).isSome = true) :
    ClickPaintingCorners.click_corners (W := W) fs p t c
      = (.ok (c.take 4), [.openWindow t, .closeWindow]) := by
  simp [ClickPaintingCorners.click_corners, h, ginput]

theorem pmain_missing1 {α W : Type} (fs : FS α) (c1 c2 : List (α × α))
    (h3 : (fs "image_3.png").isSome = false) :
    ClickPoints.main (W := W) fs c1 c2
      = ⟨.failed (.fileNotFound "image_3.png"), fs, []⟩ := by
  simp [ClickPoints.main, cpo_missing (W := W) fs _ _ _ c1 h3]

theorem pmain_short1 {α W : Type} (fs : FS α) (c1 c2 : List (α × α))
    (h3 : (fs "image_3.png").isSome = true) (h1 : c1.length < 4) :
    ClickPoints.main (W := W) fs c1 c2
      = ⟨.failed (.insufficientInput 4 c1.length), fs,
         [.openWindow ClickPoints.title1]⟩ := by
  simp [ClickPoints.main, cpo_short (W := W) fs _ _ _ c1 h3 h1]

theorem pmain_missing2 {α W : Type} (fs : FS α) (c1 c2 : List (α × α))
    (h3 : (fs "image_3.png").isSome = true) (h1 : 4 ≤ c1.length)
    (h4 : (fs "image_4.png").isSome = false) :
    ClickPoints.main (W := W) fs c1 c2
      = ⟨.failed (.fileNotFound "image_4.png"), fs,
         [.openWindow ClickPoints.title1, .closeWindow]⟩ := by
  simp [ClickPoints.main, cpo_ok (W := W) fs _ _ _ c1 h3 h1,
        cpo_missing (W := W) fs _ _ _ c2 h4]

theorem pmain_short2 {α W : Type} (fs : FS α) (c1 c2 : List (α × α))
    (h3 : (fs "image_3.png").isSome = true) (h1 : 4 ≤ c1.length)
    (h4 : (fs "image_4.png").isSome = true) (h2 : c2.length < c1.length) :
    ClickPoints.main (W := W) fs c1 c2
      = ⟨.failed (.insufficientInput c1.length c2.length), fs,
         [.openWindow ClickPoints.title1, .closeWindow,
          .openWindow (ClickPoints.title2 c1.length)]⟩ := by
  simp [ClickPoints.main, cpo_ok (W := W) fs _ _ _ c1 h3 h1,
        cpo_short (W := W) fs _ _ _ c2 h4 h2]

theorem pmain_eqlen {α W : Type} (fs : FS α) (c1 c2 : List (α × α))
    (h3 : (fs "image_3.png").isSome = true) (h1 : 4 ≤ c1.length)
    (h4 : (fs "image_4.png").isSome = true) (h2 : c2.length = c1.length) :
    ClickPoints.main (W := W) fs c1 c2
      = ⟨.completed,
         savez fs "correspondence_points.npz"
           [("image1points", c1), ("image2points", c2)],
         [.openWindow ClickPoints.title1, .closeWindow,
          .openWindow (ClickPoints.title2 c1.length), .closeWindow,
          .echoRepr "image1points" c1, .echoRepr "image2points" c2]⟩ := by
  simp [ClickPoints.main, cpo_ok (W := W) fs _ _ _ c1 h3 h1,
        cpo_ok (W := W) fs _ _ _ c2 h4 (le_of_eq h2.symm), h2]

theorem pmain_morelen {α W : Type} (fs : FS α) (c1 c2 : List (α × α))
    (h3 : (fs "image_3.png").isSome = true) (h1 : 4 ≤ c1.length)
    (h4 : (fs "image_4.png").isSome = true) (hlt : c1.length < c2.length) :
    ClickPoints.main (W := W) fs c1 c2
      = ⟨.completed,
         savez fs "correspondence_points.npz"
           [("image1points", c1), ("image2points", c2.take c1.length)],
         [.openWindow ClickPoints.title1, .closeWindow,
          .openWindow (ClickPoints.title2 c1.length), .closeWindow,
          .warnMismatch c1.length c2.length,
          .echoRepr "image1points" c1,
          .echoRepr "image2points" (c2.take c1.length)]⟩ := by
  simp [ClickPoints.main, cpo_ok (W := W) fs _ _ _ c1 h3 h1,
        cpo_ok (W := W) fs _ _ _ c2 h4 (Nat.le_of_lt hlt), hlt.ne',
        Nat.min_eq_left (Nat.le_of_lt hlt), List.take_length]

theorem pmain_completed_inv {α W : Type} (fs : FS α) (c1 c2 : List (α × α))
    (h : (ClickPoints.main (W := W) fs c1 c2).outcome = .completed) :
    (fs "image_3.png").isSome = true ∧ (fs "image_4.png").isSome = true
      ∧ 4 ≤ c1.length ∧ c1.length ≤ c2.length := by
  cases h3 : (fs "image_3.png").isSome with
  | false => rw [pmain_missing1 (W := W) fs c1 c2 h3] at h; simp at h
  | true =>
  rcases Nat.lt_or_ge c1.length 4 with h1 | h1
  · rw [pmain_short1 (W := W) fs c1 c2 h3 h1] at h; simp at h
  cases h4 : (fs "image_4.png").isSome with
  | false => rw [pmain_missing2 (W := W) fs c1 c2 h3 h1 h4] at h; simp at h
  | true =>
  rcases Nat.lt_or_ge c2.length c1.length with h2 | h2
  · rw [pmain_short2 (W := W) fs c1 c2 h3 h1 h4 h2] at h; simp at h
  exact ⟨rfl, rfl, h1, h2⟩

theorem pmain_completed_fields {α W : Type} (fs : FS α) (c1 c2 : List (α × α))
    (h : (ClickPoints.main (W := W) fs c1 c2).outcome = .completed) :
    (ClickPoints.main (W := W) fs c1 c2).fs
        = savez fs "correspondence_points.npz"
            [("image1points", c1), ("image2points", c2.take c1.length)]
      ∧ Ev.echoRepr "image1points" c1 ∈ (ClickPoints.main (W := W) fs c1 c2).events
      ∧ Ev.echoRepr "image2points" (c2.take c1.length)
          ∈ (ClickPoints.main (W := W) fs c1 c2).events
      ∧ (Ev.warnMismatch c1.length c2.length
          ∈ (ClickPoints.main (W := W) fs c1 c2).events ↔ c1.length < c2.length) := by
  obtain ⟨h3, h4, h1, h2⟩ := pmain_completed_inv (W := W) fs c1 c2 h
  rcases Nat.eq_or_lt_of_le h2 with heq | hlt
  · have htake : c2.take c1.length = c2 := by
      rw [heq]; exact List.take_length c2
    rw [pmain_eqlen (W := W) fs c1 c2 h3 h1 h4 heq.symm, htake]
    refine ⟨rfl, by simp, by simp, ?_⟩
    simp [heq]
  · rw [pmain_morelen (W := W) fs c1 c2 h3 h1 h4 hlt]
    exact ⟨rfl, by simp, by simp, by simp [hlt]⟩

theorem collectLoop_wh_free {α W : Type} (wh1 wh2 : Fin 6 → W) (fs : FS α)
    (streams : Fin 6 → List (α × α)) (l : List (Fin 6)) :
    (ClickPaintingCorners.collectLoop wh1 fs streams l).2
      = (ClickPaintingCorners.collectLoop wh2 fs streams l).2 := by
  induction l with
  | nil => rfl
  | cons i rest ih =>
      simp only [ClickPaintingCorners.collectLoop]
      cases hcap : (ClickPaintingCorners.click_corners (W := W) fs
          (ClickPaintingCorners.image_files i)
          (ClickPaintingCorners.cornerTitle i) (streams i)).1 with
      | error e => simp [hcap]
      | ok corners => simp only [hcap]; rw [ih]

theorem cmain_missing0 {α W : Type} (wh : Fin 6 → W) (fs : FS α)
    (response : String) (streams : Fin 6 → List (α × α))
    (hnpz : (fs "painting_corners.npz").isSome = false)
    (h0 : (fs (ClickPaintingCorners.image_files 0)).isSome = false) :
    ClickPaintingCorners.main wh fs response streams
      = ⟨.failed (.fileNotFound (ClickPaintingCorners.image_files 0)), fs,
         [.showDims 0 (wh 0)]⟩ := by
  simp [ClickPaintingCorners.main, hnpz, ClickPaintingCorners.allIndices,
        ClickPaintingCorners.collectLoop,
        cc_missing (W := W) fs _ (ClickPaintingCorners.cornerTitle 0) (streams 0) h0]

end ClickScripts

namespace ClickScripts

/-- C1: the claim states that both capture modes fail with an
insufficient-input error and return no partial list when the operator
finalizes below the minimum.  Correspondence mode does (second conjunct),
but corner mode does not: click_corners finalized with only 3 clicks on an
existing image returns the partial 3-point list as a success, with no error
raised (first conjunct), contradicting both the claim and the function's
own docstring, which promises a (4, 2) result. -/
theorem C1_corner_capture_lacks_min_check :
    (ClickPaintingCorners.click_corners (W := Unit) fsAll
        "Christinas World — Wyeth.jpeg" "t" demo3).1 = .ok demo3
  ∧ (ClickPoints.click_points_on_image (W := Unit) fsAll "image_3.png" "t" 4
        demo3).1 = .error (.insufficientInput 4 3) := by
  constructor <;> decide

/-- C2 counterexample: with 5 clicks on the first image and 4 on the second,
the second image yields fewer points than the first, and — contrary to the
claim that the run does not fail and truncates — the run fails with the
insufficient-input error and nothing is persisted. -/
theorem C2_cex_fewer_points_fails :
    (ClickPoints.main (W := Unit) fsAll demo5 demo4).outcome
        = .failed (.insufficientInput 5 4)
  ∧ (ClickPoints.main (W := Unit) fsAll demo5 demo4).fs
        "correspondence_points.npz" = none := by
  constructor <;> decide

/-- C2 amended: the truncation branch is reachable only when the second
capture yields MORE points than the first (because the second minimum is the
first count): in that case the run completes, emits the warning, and
persists equal-length prefixes of the raw click sequences, both cut to the
first count in original order; when the second image yields FEWER points
than the first, the capture itself fails with the insufficient-input error
and no truncation occurs. -/
theorem C2_mismatch_truncation_policy {α W : Type} (fs : FS α)
    (c1 c2 : List (α × α))
    (h3 : (fs "image_3.png").isSome = true)
    (h4 : (fs "image_4.png").isSome = true)
    (h1 : 4 ≤ c1.length) :
    (c1.length < c2.length →
        (ClickPoints.main (W := W) fs c1 c2).outcome = .completed
      ∧ (ClickPoints.main (W := W) fs c1 c2).fs "correspondence_points.npz"
          = some (.npz [("image1points", c1),
                        ("image2points", c2.take c1.length)])
      ∧ (c2.take c1.length).length = c1.length
      ∧ Ev.warnMismatch c1.length c2.length
          ∈ (ClickPoints.main (W := W) fs c1 c2).events)
  ∧ (c2.length < c1.length →
        (ClickPoints.main (W := W) fs c1 c2).outcome
          = .failed (.insufficientInput c1.length c2.length)) := by
  constructor
  · intro hlt
    rw [pmain_morelen (W := W) fs c1 c2 h3 h1 h4 hlt]
    refine ⟨rfl, ?_, ?_, ?_⟩
    · simp [savez]
    · simp [List.length_take, Nat.min_eq_left (Nat.le_of_lt hlt)]
    · simp
  · intro hgt
    rw [pmain_short2 (W := W) fs c1 c2 h3 h1 h4 hgt]

/-- C2 witness: a concrete run with 4 then 5 clicks completes, persists the
4-point prefixes, and emits the warning. -/
theorem C2_truncation_witness :
    (ClickPoints.main (W := Unit) fsAll demo4 demo5).outcome = .completed
  ∧ (ClickPoints.main (W := Unit) fsAll demo4 demo5).fs
        "correspondence_points.npz"
      = some (.npz [("image1points", demo4), ("image2points", demo5.take 4)])
  ∧ Ev.warnMismatch 4 5 ∈ (ClickPoints.main (W := Unit) fsAll demo4 demo5).events := by
  have h := (C2_mismatch_truncation_policy (W := Unit) fsAll demo4 demo5
      (by decide) (by decide) (by decide)).1 (by decide)
  exact ⟨h.1, h.2.1, h.2.2.2⟩

/-- C3: the claim says every successful corner-mode run stores six (4, 2)
arrays named corners_0 .. corners_5.  The archive does always hold exactly
those six named arrays in index order, but a run in which the operator
finalized the first image after only 3 clicks still completes successfully
and stores a 3-point array under corners_0, violating the claimed (4, 2)
shape — the missing minimum-count check of C1 propagates into the archive. -/
theorem C3_completed_run_stores_partial_array :
    (ClickPaintingCorners.main (W := Unit) (fun _ => ()) fsAll "" c3streams).outcome
        = .completed
  ∧ (ClickPaintingCorners.main (W := Unit) (fun _ => ()) fsAll "" c3streams).fs
        "painting_corners.npz"
      = some (.npz [("corners_0", demo3), ("corners_1", demo4),
                    ("corners_2", demo4), ("corners_3", demo4),
                    ("corners_4", demo4), ("corners_5", demo4)])
  ∧ demo3.length = 3 := by
  refine ⟨by decide, by decide, by decide⟩

/-- C4: every completed correspondence run persists exactly the two arrays
image1points and image2points, in that order, in the single archive
correspondence_points.npz; they have equal length, that length is at least
4, and both persisted arrays are echoed to the console. -/
theorem C4_correspondence_archive_shape {α W : Type} (fs : FS α)
    (c1 c2 : List (α × α))
    (h : (ClickPoints.main (W := W) fs c1 c2).outcome = .completed) :
    (ClickPoints.main (W := W) fs c1 c2).fs "correspondence_points.npz"
        = some (.npz [("image1points", c1), ("image2points", c2.take c1.length)])
  ∧ (c2.take c1.length).length = c1.length
  ∧ 4 ≤ c1.length
  ∧ Ev.echoRepr "image1points" c1 ∈ (ClickPoints.main (W := W) fs c1 c2).events
  ∧ Ev.echoRepr "image2points" (c2.take c1.length)
      ∈ (ClickPoints.main (W := W) fs c1 c2).events := by
  obtain ⟨h3, h4, h1, h2⟩ := pmain_completed_inv (W := W) fs c1 c2 h
  obtain ⟨hfs, he1, he2, _⟩ := pmain_completed_fields (W := W) fs c1 c2 h
  refine ⟨?_, ?_, h1, he1, he2⟩
  · rw [hfs]; simp [savez]
  · simp [List.length_take, Nat.min_eq_left h2]

/-- C4 witness: a concrete completed run with 4 clicks on each image. -/
theorem C4_archive_witness :
    (ClickPoints.main (W := Unit) fsAll demo4 demo4).outcome = .completed
  ∧ (ClickPoints.main (W := Unit) fsAll demo4 demo4).fs
        "correspondence_points.npz"
      = some (.npz [("image1points", demo4), ("image2points", demo4.take 4)]) := by
  have h := C4_correspondence_archive_shape (W := Unit) fsAll demo4 demo4 (by decide)
  exact ⟨by decide, h.1⟩

/-- C5: a capture on a missing image path fails with the FileNotFoundError
and an empty event trace (no window opened, nothing displayed); a
correspondence run whose first image is missing fails the same way with the
file system unchanged (no archive write), and likewise a corner-mode run
whose first image is missing fails with the file system unchanged and no
window event. -/
theorem C5_missing_image_aborts {α W : Type} (fs : FS α) (p t : String)
    (m : Nat) (clicks c1 c2 : List (α × α)) (wh : Fin 6 → W)
    (response : String) (streams : Fin 6 → List (α × α))
    (hp : (fs p).isSome = false) :
    ClickPoints.click_points_on_image (W := W) fs p t m clicks
        = (.error (.fileNotFound p), [])
  ∧ ClickPaintingCorners.click_corners (W := W) fs p t clicks
        = (.error (.fileNotFound p), [])
  ∧ ((fs "image_3.png").isSome = false →
        ClickPoints.main (W := W) fs c1 c2
          = ⟨.failed (.fileNotFound "image_3.png"), fs, []⟩)
  ∧ ((fs "painting_corners.npz").isSome = false →
      (fs (ClickPaintingCorners.image_files 0)).isSome = false →
        ClickPaintingCorners.main wh fs response streams
          = ⟨.failed (.fileNotFound (ClickPaintingCorners.image_files 0)), fs,
             [.showDims 0 (wh 0)]⟩) := by
  refine ⟨cpo_missing (W := W) fs p t m clicks hp,
          cc_missing (W := W) fs p t clicks hp,
          fun h3 => pmain_missing1 (W := W) fs c1 c2 h3,
          fun hnpz h0 => cmain_missing0 wh fs response streams hnpz h0⟩

/-- C5 witness: on an empty file system, the capture and the corner-mode
run both fail with FileNotFoundError, display nothing and write nothing. -/
theorem C5_missing_image_witness :
    ClickPoints.click_points_on_image (α := Int) (W := Unit)
        (fun _ => none) "x" "t" 4 []
      = (.error (.fileNotFound "x"), [])
  ∧ ClickPaintingCorners.main (α := Int) (W := Unit) (fun _ => ())
        (fun _ => none) "" (fun _ => [])
      = ⟨.failed (.fileNotFound (ClickPaintingCorners.image_files 0)),
         (fun _ => none), [.showDims 0 ()]⟩ := by
  have h := C5_missing_image_aborts (α := Int) (W := Unit) (fun _ => none)
      "x" "t" 4 [] [] [] (fun _ => ()) "" (fun _ => []) rfl
  exact ⟨h.1, h.2.2.2 rfl rfl⟩

/-- C6: in corner mode, when a prior painting_corners.npz exists and the
operator declines the overwrite prompt (any response not lowercasing to y),
the whole procedure returns at once: outcome declined, the file system —
including the pre-existing archive — unchanged, and an empty event trace,
so no image display and no file change of any kind. -/
theorem C6_decline_preserves_everything {α W : Type} (wh : Fin 6 → W)
    (fs : FS α) (response : String) (streams : Fin 6 → List (α × α))
    (harch : (fs "painting_corners.npz").isSome = true)
    (hresp : (lower response == "y") = false) :
    ClickPaintingCorners.main wh fs response streams = ⟨.declined, fs, []⟩ := by
  simp [ClickPaintingCorners.main, harch, hresp]

/-- C6 witness: declining with the response n on a file system holding a
prior archive leaves everything unchanged. -/
theorem C6_decline_witness :
    (fsArch "painting_corners.npz").isSome = true
  ∧ (lower "n" == "y") = false
  ∧ ClickPaintingCorners.main (α := Int) (W := Unit) (fun _ => ()) fsArch "n"
        (fun _ => []) = ⟨.declined, fsArch, []⟩ := by
  refine ⟨by decide, by decide,
    C6_decline_preserves_everything _ _ _ _ (by decide) (by decide)⟩

/-- C7: the painting dimensions feed only the console display: two
corner-mode runs that are identical except for the dimension values have
the same outcome and an identical final file system, hence identical
collected corner points and identical persisted archive contents. -/
theorem C7_dims_only_displayed {α W : Type} (wh1 wh2 : Fin 6 → W)
    (fs : FS α) (response : String) (streams : Fin 6 → List (α × α)) :
    (ClickPaintingCorners.main wh1 fs response streams).outcome
        = (ClickPaintingCorners.main wh2 fs response streams).outcome
  ∧ (ClickPaintingCorners.main wh1 fs response streams).fs
        = (ClickPaintingCorners.main wh2 fs response streams).fs := by
  have hc := collectLoop_wh_free (W := W) wh1 wh2 fs streams
      ClickPaintingCorners.allIndices
  by_cases hcond : ((fs "painting_corners.npz").isSome
      && !(lower response == "y")) = true
  · constructor <;> simp [ClickPaintingCorners.main, hcond]
  · constructor <;>
    · simp only [ClickPaintingCorners.main, if_neg hcond]
      rw [hc]
      cases hr : (ClickPaintingCorners.collectLoop wh2 fs streams
          ClickPaintingCorners.allIndices).2 <;> simp [hr]

/-- C8: for both top-level handlers, an operator interrupt is caught,
produces the friendly note, and terminates cleanly without re-raising; any
other exception is logged and then re-raised, terminating the process with
a failure carrying that exception. -/
theorem C8_top_level_handlers (ε : Type) (e : ε) :
    ClickPaintingCorners.entry (ε := ε) .interrupted = (.clean, [.interruptNote])
  ∧ ClickPoints.entry (ε := ε) .interrupted = (.clean, [.interruptNote])
  ∧ ClickPaintingCorners.entry (.raises e) = (.nonzero e, [.errorNote e])
  ∧ ClickPoints.entry (.raises e) = (.nonzero e, [.errorNote e]) :=
  ⟨rfl, rfl, rfl, rfl⟩

/-- C9 counterexample: a correspondence capture that fails the
minimum-count check raises the error before plt.close runs, so its trace
opens a window and never closes it — the net open-window count after the
capture is 1, not 0 as the claim requires of every exit path. -/
theorem C9_cex_window_left_open :
    (ClickPoints.click_points_on_image (W := Unit) fsAll "image_4.png" "t" 5
        demo4).1 = .error (.insufficientInput 5 4)
  ∧ openDelta (ClickPoints.click_points_on_image (W := Unit) fsAll
        "image_4.png" "t" 5 demo4).2 ≠ 0 := by
  constructor <;> decide

/-- C9 amended: corner-mode captures close every window they open on all
their paths, and correspondence-mode captures open no window on the
missing-file path and close their window on the success path; but on the
insufficient-input failure path exactly one window remains open, because
the error is raised before plt.close. -/
theorem C9_window_close_discipline {α W : Type} (fs : FS α) (p t : String)
    (m : Nat) (clicks : List (α × α)) :
    openDelta ((ClickPaintingCorners.click_corners (W := W) fs p t clicks).2) = 0
  ∧ ((fs p).isSome = false →
      (ClickPoints.click_points_on_image (W := W) fs p t m clicks).2 = [])
  ∧ ((fs p).isSome = true → m ≤ clicks.length →
      openDelta ((ClickPoints.click_points_on_image (W := W) fs p t m
        clicks).2) = 0)
  ∧ ((fs p).isSome = true → clicks.length < m →
      openDelta ((ClickPoints.click_points_on_image (W := W) fs p t m
        clicks).2) = 1) := by
  refine ⟨?_, ?_, ?_, ?_⟩
  · cases hp : (fs p).isSome with
    | false => rw [cc_missing (W := W) fs p t clicks hp]; rfl
    | true => rw [cc_present (W := W) fs p t clicks hp]; rfl
  · intro hp; rw [cpo_missing (W := W) fs p t m clicks hp]
  · intro hp hm; rw [cpo_ok (W := W) fs p t m clicks hp hm]; rfl
  · intro hp hm; rw [cpo_short (W := W) fs p t m clicks hp hm]; rfl

/-- C9 witness: a successful capture leaves the net open-window count at 0. -/
theorem C9_success_closes_witness :
    openDelta ((ClickPoints.click_points_on_image (α := Int) (W := Unit) fsAll
        "image_3.png" "t" 4 demo4).2) = 0 :=
  (C9_window_close_discipline fsAll "image_3.png" "t" 4 demo4).2.2.1
    (by decide) (by decide)

/-- C10: a completed correspondence run persists arrays of length exactly
the first capture count: the second capture cannot succeed with fewer
clicks than the first (its minimum is the first count), the warning and
truncation occur exactly when the second image yields strictly more points,
and both persisted arrays are the raw sequences cut to the first count. -/
theorem C10_persisted_length_is_first_count {α W : Type} (fs : FS α)
    (c1 c2 : List (α × α))
    (h : (ClickPoints.main (W := W) fs c1 c2).outcome = .completed) :
    c1.length ≤ c2.length
  ∧ (ClickPoints.main (W := W) fs c1 c2).fs "correspondence_points.npz"
      = some (.npz [("image1points", c1), ("image2points", c2.take c1.length)])
  ∧ (c2.take c1.length).length = c1.length
  ∧ (Ev.warnMismatch c1.length c2.length
      ∈ (ClickPoints.main (W := W) fs c1 c2).events ↔ c1.length < c2.length) := by
  obtain ⟨h3, h4, h1, h2⟩ := pmain_completed_inv (W := W) fs c1 c2 h
  obtain ⟨hfs, _, _, hwarn⟩ := pmain_completed_fields (W := W) fs c1 c2 h
  refine ⟨h2, ?_, ?_, hwarn⟩
  · rw [hfs]; simp [savez]
  · simp [List.length_take, Nat.min_eq_left h2]

/-- C10 witness: a completed run with 4 then 6 clicks persists two 4-point
arrays and does emit the mismatch warning. -/
theorem C10_length_witness :
    (ClickPoints.main (W := Unit) fsAll demo4 demo6).outcome = .completed
  ∧ (ClickPoints.main (W := Unit) fsAll demo4 demo6).fs
        "correspondence_points.npz"
      = some (.npz [("image1points", demo4), ("image2points", demo6.take 4)])
  ∧ demo4.length ≤ demo6.length := by
  have h := C10_persisted_length_is_first_count (W := Unit) fsAll demo4 demo6
      (by decide)
  exact ⟨by decide, h.2.1, h.1⟩

end ClickScripts
